import Mathlib

/-!
Verification of the order-translation logic of `server.py` (binance-bot).

The Python module is shallowly embedded as follows.

* Python floats are idealised as exact rationals (`ℚ`); Python ints as `ℤ`/`ℕ`.
* The Binance REST client is an external collaborator; it is modelled by the
  `Exchange` structure, one field per client method used by the code, each
  returning `Except PyErr α` (an exception or a value).  Every function that
  talks to the client also returns the list of calls it issued (`List ExCall`),
  so that "no call is made" claims are statements about that trace.
* Python exceptions relevant to the handler are the constructors of `PyErr`:
  `BinanceAPIException` (with its numeric `code`), `KeyError`, `ValueError`,
  and a catch-all for any other `Exception`.
* The process-wide `symbol_info_cache` dictionary is threaded explicitly as an
  association list (`Cache`); functions return the updated cache.
* JSON scalar field values are modelled by `PyVal`: a number, a string that
  `float()` parses (carrying the parsed value), a string that `float()`
  rejects, or `null`.
-/

namespace BinanceBot

/-- Python exception classes distinguished by `server.py`. -/
inductive PyErr where
  | api (code : ℤ) (msg : String)
  | keyError (msg : String)
  | valueError (msg : String)
  | other (msg : String)
  deriving DecidableEq, Repr

/-- A JSON scalar value as the webhook handler sees it. -/
inductive PyVal where
  | num (q : ℚ)
  | numStr (q : ℚ)
  | str (s : String)
  | null
  deriving DecidableEq, Repr

/-- The triple stored in `symbol_info_cache` for one symbol. -/
structure SymbolFilters where
  tickSize : ℚ
  stepSize : ℚ
  minQty : ℚ
  deriving DecidableEq, Repr

/-- One entry of a symbol's `filters` array in the exchange-info response.
Fields are `Option` because the code indexes them (`f[...]`, a `KeyError`
when absent). -/
structure RawFilter where
  filterType : String
  tickSize : Option ℚ
  stepSize : Option ℚ
  minQty : Option ℚ
  deriving DecidableEq, Repr

/-- One entry of `exchange_info['symbols']`. -/
structure SymInstr where
  symbol : String
  filters : List RawFilter
  deriving DecidableEq, Repr

/-- One entry of the `futures_position_information` response. -/
structure PosInfo where
  symbol : String
  positionAmt : ℚ
  deriving DecidableEq, Repr

/-- The order dictionary returned by `futures_create_order`. -/
structure OrderResp where
  orderId : ℕ
  deriving DecidableEq, Repr

/-- One call issued to the Binance client, with its arguments. -/
inductive ExCall where
  | exchangeInfo
  | positionInfo (symbol : String)
  | cancelAllOpenOrders (symbol : String)
  | changeLeverage (symbol : String) (leverage : ℤ)
  | markPrice (symbol : String)
  | createOrder (symbol side otype : String) (quantity : ℚ)
      (callbackRate : Option ℚ) (workingType : Option String)
  deriving DecidableEq, Repr

/-- Is this call a `futures_change_leverage` call? -/
def ExCall.isChangeLeverage : ExCall → Bool
  | .changeLeverage _ _ => true
  | _ => false

/-- Is this call a `futures_mark_price` call? -/
def ExCall.isMarkPrice : ExCall → Bool
  | .markPrice _ => true
  | _ => false

/-- Is this call a `futures_create_order` call? -/
def ExCall.isCreateOrder : ExCall → Bool
  | .createOrder _ _ _ _ _ _ => true
  | _ => false

/-- Is this call a `futures_create_order` call of type `TRAILING_STOP_MARKET`? -/
def ExCall.isTrailingStop : ExCall → Bool
  | .createOrder _ _ t _ _ _ => t == "TRAILING_STOP_MARKET"
  | _ => false

/-- The exchange collaborator: each Binance client method used by
`server.py`, as an oracle giving the outcome of the (single) call the
handler may make with given arguments. -/
structure Exchange where
  futures_exchange_info : Except PyErr (List SymInstr)
  futures_position_information : String → Except PyErr (List PosInfo)
  futures_cancel_all_open_orders : String → Except PyErr Unit
  futures_change_leverage : String → ℤ → Except PyErr Unit
  futures_mark_price : String → Except PyErr ℚ
  futures_create_order : String → String → String → ℚ → Option ℚ → Option String →
      Except PyErr OrderResp

/-- The process-wide `symbol_info_cache`, threaded explicitly. -/
abbrev Cache := List (String × SymbolFilters)

/-- `float(x)` applied to a JSON scalar: numbers and numeric strings convert,
other strings raise `ValueError`, `None` raises `TypeError` (any other
exception). -/
def pyFloat : PyVal → Except PyErr ℚ
  | .num q => .ok q
  | .numStr q => .ok q
  | .str s => .error (.valueError ("could not convert string to float: " ++ s))
  | .null => .error (.other "TypeError: float argument is None")

/-- `int()` applied to a Python float: truncation toward zero. -/
def pyIntTrunc (q : ℚ) : ℤ := if 0 ≤ q then ⌊q⌋ else ⌈q⌉

/-- `precision = int(round(-math.log(step_size, 10), 0))` from
`adjust_quantity`, with real arithmetic idealised over `ℚ`:
for `s > 0`, the integer nearest to `-log10 s` is `-⌈log10 (s²) / 2⌉`
with `⌊log10 (s²)⌋ = Int.log 10 (s²)` (ties at half-integers cannot occur
for rational `s`).  The claim `C6` theorem proves the characterising bounds
`10 ^ (-2p-1) ≤ s² ≤ 10 ^ (-2p+1)`, i.e. `|(-log10 s) - p| ≤ 1/2`. -/
def precision (step_size : ℚ) : ℤ :=
  -⌈((Int.log 10 (step_size * step_size) : ℤ) : ℚ) / 2⌉

/-- `adjust_quantity(quantity, step_size, min_qty)` from `server.py`:
truncate to the derived decimal precision; below `min_qty` means `0.0`. -/
def adjust_quantity (quantity step_size min_qty : ℚ) : ℚ :=
  let p := precision step_size
  let formatted_quantity := (⌊quantity * 10 ^ p⌋ : ℚ) / 10 ^ p
  if formatted_quantity < min_qty then 0 else formatted_quantity

/-- `next(f[field] for f in filters if f['filterType'] == ftype)`:
`StopIteration` (a plain `Exception` here) when no entry matches,
`KeyError` when the matching entry lacks the field. -/
def findFilterField (filters : List RawFilter) (ftype : String)
    (field : RawFilter → Option ℚ) (fieldName : String) : Except PyErr ℚ :=
  match filters.find? (fun f => f.filterType == ftype) with
  | none => .error (.other "StopIteration")
  | some f =>
    match field f with
    | none => .error (.keyError fieldName)
    | some v => .ok v

/-- The dictionary built at the cache-fill site of `get_symbol_info`:
`tickSize` from the `PRICE_FILTER` entry, `stepSize` and `minQty` from the
`LOT_SIZE` entry. -/
def extractFilters (s : SymInstr) : Except PyErr SymbolFilters := do
  let tick ← findFilterField s.filters "PRICE_FILTER" RawFilter.tickSize "tickSize"
  let step ← findFilterField s.filters "LOT_SIZE" RawFilter.stepSize "stepSize"
  let minq ← findFilterField s.filters "LOT_SIZE" RawFilter.minQty "minQty"
  return { tickSize := tick, stepSize := step, minQty := minq }

/-- `get_symbol_info(symbol)` from `server.py`.  On a cache miss it calls
`futures_exchange_info`; only `BinanceAPIException` is caught (returning
`None`, modelled `.ok none`); any other exception propagates.  When the call
succeeds but the symbol is absent, the final `return symbol_info_cache[symbol]`
raises `KeyError` (the cache was never filled). -/
def get_symbol_info (ex : Exchange) (cache : Cache) (symbol : String) :
    Except PyErr (Option SymbolFilters) × Cache × List ExCall :=
  match cache.lookup symbol with
  | some info => (.ok (some info), cache, [])
  | none =>
    match ex.futures_exchange_info with
    | .error (.api _ _) => (.ok none, cache, [.exchangeInfo])
    | .error e => (.error e, cache, [.exchangeInfo])
    | .ok instruments =>
      match instruments.find? (fun s => s.symbol == symbol) with
      | none => (.error (.keyError symbol), cache, [.exchangeInfo])
      | some s =>
        match extractFilters s with
        | .error e => (.error e, cache, [.exchangeInfo])
        | .ok info => (.ok (some info), (symbol, info) :: cache, [.exchangeInfo])

/-- The second component of `close_position_for_symbol`'s `(bool, message)`
result: the plain strings the code returns, the close order id, or `str(e)`
of a caught exception. -/
inductive CloseDetail where
  | msg (s : String)
  | orderId (n : ℕ)
  | errMsg (s : String)
  deriving DecidableEq, Repr

/-- Render a `CloseDetail` the way the webhook interpolates it. -/
def CloseDetail.text : CloseDetail → String
  | .msg s => s
  | .orderId n => toString n
  | .errMsg s => s

/-- The `except` clauses of `close_position_for_symbol`: a
`BinanceAPIException` with code `-2022` is treated as success with a sentinel
message; every other exception yields `(False, str(e))`. -/
def handleCloseError (e : PyErr) : Bool × CloseDetail :=
  match e with
  | .api code msg =>
    if code = -2022 then (true, .msg "Position likely already closed.")
    else (false, .errMsg msg)
  | .keyError m => (false, .errMsg m)
  | .valueError m => (false, .errMsg m)
  | .other m => (false, .errMsg m)

/-- `close_position_for_symbol(symbol)` from `server.py`, returning the
`(bool, message)` pair together with the trace of client calls issued. -/
def close_position_for_symbol (ex : Exchange) (symbol : String) :
    (Bool × CloseDetail) × List ExCall :=
  match ex.futures_position_information symbol with
  | .error e => (handleCloseError e, [.positionInfo symbol])
  | .ok positions =>
    match positions.find? (fun p => decide (p.symbol = symbol ∧ p.positionAmt ≠ 0)) with
    | none => ((true, .msg "No position to close."), [.positionInfo symbol])
    | some position =>
      let position_amount := position.positionAmt
      let side_to_close := if 0 < position_amount then "SELL" else "BUY"
      let quantity_to_close := |position_amount|
      match ex.futures_cancel_all_open_orders symbol with
      | .error e =>
        (handleCloseError e, [.positionInfo symbol, .cancelAllOpenOrders symbol])
      | .ok _ =>
        match ex.futures_create_order symbol side_to_close "MARKET"
            quantity_to_close none none with
        | .error e =>
          (handleCloseError e,
           [.positionInfo symbol, .cancelAllOpenOrders symbol,
            .createOrder symbol side_to_close "MARKET" quantity_to_close none none])
        | .ok close_order =>
          ((true, .orderId close_order.orderId),
           [.positionInfo symbol, .cancelAllOpenOrders symbol,
            .createOrder symbol side_to_close "MARKET" quantity_to_close none none])

/-- A webhook HTTP response body, mirroring the three `jsonify` shapes. -/
inductive RespBody where
  | errorMsg (message : String)
  | successClose (message : String) (details : CloseDetail)
  | successOpen (orderId : ℕ) (message : String)
  deriving DecidableEq, Repr

/-- A webhook HTTP response: body and status code. -/
structure HttpResp where
  body : RespBody
  code : ℕ
  deriving DecidableEq, Repr

/-- The parsed JSON object of a webhook request: the fields the handler
accesses.  `secret`, `symbol`, `side` are consumed as strings; `lev`,
`usdt`, `tsl` go through `float()` and are kept as raw `PyVal`s. -/
structure WebhookData where
  secret : Option String
  symbol : Option String
  side : Option String
  lev : Option PyVal
  usdt : Option PyVal
  tsl : Option PyVal
  deriving DecidableEq, Repr

/-- Python's `str.upper()` (over the characters of the string). -/
def pyUpper (s : String) : String := ⟨s.data.map Char.toUpper⟩

/-- `side = 'BUY' if action in ['LONG', 'BUY'] else 'SELL'`. -/
def entrySide (action : String) : String :=
  if action = "LONG" ∨ action = "BUY" then "BUY" else "SELL"

/-- The `try` block of the directional branch of `webhook` (lines 145-177):
field conversion, symbol info, leverage, mark price, sizing, entry order and
optional trailing stop.  Result: `.ok` with the response the block returns,
or `.error` with the exception escaping to the `except` clauses; plus the
issued client calls and the updated cache. -/
def tryOpen (ex : Exchange) (cache : Cache) (data : WebhookData)
    (symbol action : String) :
    Except PyErr HttpResp × Cache × List ExCall :=
  let side := entrySide action
  match data.lev with
  | none => (.error (.keyError "lev"), cache, [])
  | some levRaw =>
    match pyFloat levRaw with
    | .error e => (.error e, cache, [])
    | .ok levF =>
      let leverage := pyIntTrunc levF
      match data.usdt with
      | none => (.error (.keyError "usdt"), cache, [])
      | some usdtRaw =>
        match pyFloat usdtRaw with
        | .error e => (.error e, cache, [])
        | .ok usdt_amount =>
          match pyFloat (data.tsl.getD (.num 0)) with
          | .error e => (.error e, cache, [])
          | .ok tsl_percent =>
            match get_symbol_info ex cache symbol with
            | (.error e, cache2, calls1) => (.error e, cache2, calls1)
            | (.ok none, cache2, calls1) =>
              (.error (.valueError ("No se pudo obtener info para " ++ symbol)),
               cache2, calls1)
            | (.ok (some info), cache2, calls1) =>
              match ex.futures_change_leverage symbol leverage with
              | .error e =>
                (.error e, cache2, calls1 ++ [.changeLeverage symbol leverage])
              | .ok _ =>
                match ex.futures_mark_price symbol with
                | .error e =>
                  (.error e, cache2,
                   calls1 ++ [.changeLeverage symbol leverage, .markPrice symbol])
                | .ok mark_price =>
                  if mark_price = 0 then
                    (.error (.other "ZeroDivisionError"), cache2,
                     calls1 ++ [.changeLeverage symbol leverage, .markPrice symbol])
                  else
                    let quantity_unformatted := usdt_amount * (leverage : ℚ) / mark_price
                    let quantity :=
                      adjust_quantity quantity_unformatted info.stepSize info.minQty
                    if quantity ≤ 0 then
                      (.ok ⟨.errorMsg "La cantidad calculada es demasiado pequena.", 400⟩,
                       cache2,
                       calls1 ++ [.changeLeverage symbol leverage, .markPrice symbol])
                    else
                      match ex.futures_create_order symbol side "MARKET" quantity
                          none none with
                      | .error e =>
                        (.error e, cache2,
                         calls1 ++ [.changeLeverage symbol leverage, .markPrice symbol,
                           .createOrder symbol side "MARKET" quantity none none])
                      | .ok order =>
                        if 0.1 ≤ tsl_percent ∧ tsl_percent ≤ 5 then
                          let tsl_side := if side = "BUY" then "SELL" else "BUY"
                          match ex.futures_create_order symbol tsl_side
                              "TRAILING_STOP_MARKET" quantity (some tsl_percent)
                              (some "MARK_PRICE") with
                          | .error e =>
                            (.error e, cache2,
                             calls1 ++ [.changeLeverage symbol leverage,
                               .markPrice symbol,
                               .createOrder symbol side "MARKET" quantity none none,
                               .createOrder symbol tsl_side "TRAILING_STOP_MARKET"
                                 quantity (some tsl_percent) (some "MARK_PRICE")])
                          | .ok _ =>
                            (.ok ⟨.successOpen order.orderId "Operacion completada", 200⟩,
                             cache2,
                             calls1 ++ [.changeLeverage symbol leverage,
                               .markPrice symbol,
                               .createOrder symbol side "MARKET" quantity none none,
                               .createOrder symbol tsl_side "TRAILING_STOP_MARKET"
                                 quantity (some tsl_percent) (some "MARK_PRICE")])
                        else
                          (.ok ⟨.successOpen order.orderId "Operacion completada", 200⟩,
                           cache2,
                           calls1 ++ [.changeLeverage symbol leverage, .markPrice symbol,
                             .createOrder symbol side "MARKET" quantity none none])

/-- The `except` clauses of the directional branch: `KeyError`/`ValueError`
are client-input errors (400); `BinanceAPIException` and anything else are
server-side errors (500). -/
def openErrorResp : PyErr → HttpResp
  | .keyError m =>
    ⟨.errorMsg ("Datos incompletos o invalidos para abrir orden: " ++ m), 400⟩
  | .valueError m =>
    ⟨.errorMsg ("Datos incompletos o invalidos para abrir orden: " ++ m), 400⟩
  | .api _ m => ⟨.errorMsg m, 500⟩
  | .other m => ⟨.errorMsg m, 500⟩

/-- The `/webhook` POST handler of `server.py`.  `data?` is the parsed body
(`none` when `request.get_json` did not produce a dict); `webhookSecret` is
the configured `WEBHOOK_SECRET`.  Returns the response, the updated filter
cache, and the trace of client calls issued while handling the request. -/
def webhook (ex : Exchange) (webhookSecret : String) (cache : Cache)
    (data? : Option WebhookData) : HttpResp × Cache × List ExCall :=
  match data? with
  | none => (⟨.errorMsg "JSON malformado o vacio", 400⟩, cache, [])
  | some data =>
    if data.secret = some webhookSecret then
      match data.symbol with
      | none => (⟨.errorMsg "Dato requerido faltante: symbol", 400⟩, cache, [])
      | some rawSymbol =>
        match data.side with
        | none => (⟨.errorMsg "Dato requerido faltante: side", 400⟩, cache, [])
        | some rawSide =>
          let symbol := pyUpper rawSymbol
          let action := pyUpper rawSide
          if action = "CLOSE" then
            match close_position_for_symbol ex symbol with
            | ((true, detail), calls) =>
              (⟨.successClose ("Orden de cierre para " ++ symbol ++ " procesada.")
                  detail, 200⟩, cache, calls)
            | ((false, detail), calls) => (⟨.errorMsg detail.text, 500⟩, cache, calls)
          else
            if action = "LONG" ∨ action = "BUY" ∨ action = "SHORT" ∨ action = "SELL" then
              match close_position_for_symbol ex symbol with
              | ((false, _), closeCalls) =>
                (⟨.errorMsg "No se pudo cerrar la posicion existente antes de abrir una nueva.",
                   500⟩, cache, closeCalls)
              | ((true, _), closeCalls) =>
                match tryOpen ex cache data symbol action with
                | (.ok resp, cache2, openCalls) => (resp, cache2, closeCalls ++ openCalls)
                | (.error e, cache2, openCalls) =>
                  (openErrorResp e, cache2, closeCalls ++ openCalls)
            else
              (⟨.errorMsg ("Accion " ++ action ++ " no reconocida. Usar LONG, SHORT o CLOSE."),
                 400⟩, cache, [])
    else
      (⟨.errorMsg "No autorizado", 401⟩, cache, [])

/-! ## Test fixtures: concrete exchanges, caches and requests used
by witnesses and counterexamples -/

/-- A benign exchange: flat position, all calls succeed, order id `7`. -/
def exFlat0 : Exchange where
  futures_exchange_info := .ok []
  futures_position_information := fun _ => .ok [⟨"BTCUSDT", 0⟩]
  futures_cancel_all_open_orders := fun _ => .ok ()
  futures_change_leverage := fun _ _ => .ok ()
  futures_mark_price := fun _ => .ok 50000
  futures_create_order := fun _ _ _ _ _ _ => .ok ⟨7⟩

/-- Like `exFlat0` but with an open long position of `1.5`. -/
def exLong15 : Exchange := { exFlat0 with
  futures_position_information := fun _ => .ok [⟨"BTCUSDT", 3/2⟩] }

/-- Like `exFlat0` but with an open short position of `-2.0`. -/
def exShort2 : Exchange := { exFlat0 with
  futures_position_information := fun _ => .ok [⟨"BTCUSDT", -2⟩] }

/-- Like `exLong15` but cancelling open orders fails with API code `-1000`. -/
def exCancelFail : Exchange := { exLong15 with
  futures_cancel_all_open_orders := fun _ => .error (.api (-1000) "cancel failed") }

/-- Like `exLong15` but cancelling open orders fails with API code `-2022`. -/
def exCancel2022 : Exchange := { exLong15 with
  futures_cancel_all_open_orders := fun _ => .error (.api (-2022) "reduce only rejected") }

/-- Like `exFlat0` but the position query itself fails, so the close step
reports failure. -/
def exPosFail : Exchange := { exFlat0 with
  futures_position_information := fun _ => .error (.api (-1) "api down") }

/-- A `LONG BTCUSDT` request with valid secret and numeric fields. -/
def dataLong : WebhookData :=
  { secret := some "s", symbol := some "BTCUSDT", side := some "LONG",
    lev := some (.num 10), usdt := some (.num 100), tsl := none }

/-- A `LONG BTCUSDT` request whose `tsl` field is the unparseable string
`"abc"`. -/
def dataBadTsl : WebhookData := { dataLong with tsl := some (.str "abc") }

/-- A `LONG BTCUSDT` request with a wrong secret. -/
def dataBadSecret0 : WebhookData := { dataLong with secret := some "wrong" }

/-- A request missing the `symbol` field. -/
def dataNoSym0 : WebhookData := { dataLong with symbol := none }

/-- A request missing the `side` field. -/
def dataNoSide0 : WebhookData := { dataLong with side := none }

/-- A directional request missing the `lev` field. -/
def dataNoLev0 : WebhookData := { dataLong with lev := none }

/-- The cache already holding the `BTCUSDT` filters
`tickSize 0.1, stepSize 0.001, minQty 0.001`. -/
def cacheBTC : Cache := [("BTCUSDT", ⟨1/10, 1/1000, 1/1000⟩)]

/-- A directional request with non-numeric `lev`. -/
def dataStrLev : WebhookData := { dataLong with lev := some (.str "ten") }

/-- A directional request with no `usdt` field. -/
def dataNoUsdt : WebhookData := { dataLong with usdt := none }

/-- A directional request whose notional is too small: `usdt = 0.001`. -/
def dataTiny : WebhookData :=
  { dataLong with lev := some (.num 1), usdt := some (.num (1/1000)) }

/-- A directional request with `lev = -1` and `usdt = -100`. -/
def dataNegLev : WebhookData :=
  { dataLong with lev := some (.num (-1)), usdt := some (.num (-100)) }

/-- Like `exFlat0` but the instrument-list call fails. -/
def exInfoFail : Exchange := { exFlat0 with
  futures_exchange_info := .error (.api (-1) "exchange down") }

/-- Like `exFlat0` but the instrument list does not contain the symbol. -/
def exNoSym : Exchange := { exFlat0 with futures_exchange_info := .ok [] }

/-- Like `exFlat0` but only `MARKET` orders succeed; the trailing-stop order
is rejected by the exchange. -/
def exTslFail : Exchange := { exFlat0 with
  futures_create_order := fun _ _ otype _ _ _ =>
    if otype == "MARKET" then .ok ⟨7⟩
    else .error (.api (-1102) "tsl rejected") }

/-- A `LONG BTCUSDT` request with an in-range `tsl = 1`. -/
def dataTsl1 : WebhookData := { dataLong with tsl := some (.num 1) }

/-- A `LONG BTCUSDT` request with the out-of-range `tsl = 0.05`. -/
def dataTslTiny : WebhookData := { dataLong with tsl := some (.num (1/20)) }

/-! ## Shared lemmas -/

/-- The trace of `close_position_for_symbol` always starts with the
`futures_position_information` call. -/
theorem close_calls_head (ex : Exchange) (symbol : String) :
    ((close_position_for_symbol ex symbol).2).head? = some (.positionInfo symbol) := by
  unfold close_position_for_symbol
  repeat' first
    | split
    | dsimp only []
  all_goals rfl

/-- `close_position_for_symbol` never changes leverage nor fetches the mark
price. -/
theorem close_calls_no_open_prep (ex : Exchange) (symbol : String) :
    ((close_position_for_symbol ex symbol).2).all
      (fun c => !c.isChangeLeverage && !c.isMarkPrice) = true := by
  unfold close_position_for_symbol
  repeat' first
    | split
    | dsimp only []
  all_goals rfl

/-- Any `futures_create_order` call issued by `close_position_for_symbol`
is a `MARKET` order (never a trailing stop). -/
theorem close_calls_no_tsl (ex : Exchange) (symbol : String) :
    ((close_position_for_symbol ex symbol).2).all (fun c => !c.isTrailingStop) = true := by
  unfold close_position_for_symbol
  repeat' first
    | split
    | dsimp only []
  all_goals rfl

/-- `get_symbol_info` issues either no call (cache hit) or exactly the one
`futures_exchange_info` call. -/
theorem get_symbol_info_calls (ex : Exchange) (cache : Cache) (symbol : String) :
    (get_symbol_info ex cache symbol).2.2 = [] ∨
      (get_symbol_info ex cache symbol).2.2 = [ExCall.exchangeInfo] := by
  unfold get_symbol_info
  repeat' first
    | split
    | dsimp only []
  all_goals simp

/-! ## Claim C6: quantity normalization -/

/-- Truncation to the derived precision never rounds up. -/
theorem floor_prec_le (q : ℚ) (p : ℤ) : (⌊q * 10 ^ p⌋ : ℚ) / 10 ^ p ≤ q := by
  have hpow : (0:ℚ) < 10 ^ p := zpow_pos (by norm_num) p
  rw [div_le_iff₀ hpow]
  exact Int.floor_le _

/-- `precision s` is an integer within `1/2` of `-log10 s`, encoded over `ℚ`:
`10 ^ (-2p-1) ≤ s² ≤ 10 ^ (-2p+1)` says exactly `|log10 s + p| ≤ 1/2`. -/
theorem precision_bounds (s : ℚ) (hs : 0 < s) :
    (10:ℚ) ^ (-2 * precision s - 1) ≤ s * s ∧
      s * s ≤ (10:ℚ) ^ (-2 * precision s + 1) := by
  have hss : (0:ℚ) < s * s := mul_pos hs hs
  have hlow : ((10:ℕ):ℚ) ^ Int.log 10 (s*s) ≤ s*s :=
    Int.zpow_log_le_self (by norm_num) hss
  have hhigh : s*s < ((10:ℕ):ℚ) ^ (Int.log 10 (s*s) + 1) :=
    Int.lt_zpow_succ_log_self (by norm_num) _
  set m := Int.log 10 (s * s) with hm
  have hcast : ((10:ℕ):ℚ) = (10:ℚ) := by norm_num
  rw [hcast] at hlow hhigh
  rcases Int.even_or_odd m with ⟨k, hk⟩ | ⟨k, hk⟩
  · have hp : precision s = -k := by
      rw [precision, ← hm, hk]
      have hdiv : ((k + k : ℤ) : ℚ) / 2 = (k : ℚ) := by push_cast; ring
      rw [hdiv, Int.ceil_intCast]
    constructor
    · have h1 : -2 * precision s - 1 ≤ m := by rw [hp, hk]; omega
      calc (10:ℚ) ^ (-2 * precision s - 1) ≤ (10:ℚ) ^ m :=
            zpow_le_zpow_right₀ (by norm_num) h1
        _ ≤ s * s := hlow
    · have h2 : m + 1 ≤ -2 * precision s + 1 := by rw [hp, hk]; omega
      calc s * s ≤ (10:ℚ) ^ (m + 1) := le_of_lt hhigh
        _ ≤ (10:ℚ) ^ (-2 * precision s + 1) := zpow_le_zpow_right₀ (by norm_num) h2
  · have hp : precision s = -(k + 1) := by
      rw [precision, ← hm, hk]
      have hdiv : ((2 * k + 1 : ℤ) : ℚ) / 2 = (k : ℚ) + 1/2 := by push_cast; ring
      rw [hdiv]
      have hceil : ⌈(k:ℚ) + 1/2⌉ = k + 1 := by
        rw [add_comm, Int.ceil_add_int,
          show ⌈(1/2 : ℚ)⌉ = 1 from by rw [Int.ceil_eq_iff]; norm_num]
        omega
      rw [hceil]
    constructor
    · have h1 : -2 * precision s - 1 ≤ m := by rw [hp, hk]; omega
      calc (10:ℚ) ^ (-2 * precision s - 1) ≤ (10:ℚ) ^ m :=
            zpow_le_zpow_right₀ (by norm_num) h1
        _ ≤ s * s := hlow
    · have h2 : m + 1 ≤ -2 * precision s + 1 := by rw [hp, hk]; omega
      calc s * s ≤ (10:ℚ) ^ (m + 1) := le_of_lt hhigh
        _ ≤ (10:ℚ) ^ (-2 * precision s + 1) := zpow_le_zpow_right₀ (by norm_num) h2

/-- Claim C6: for all `rawQuantity, stepSize, minQty > 0`, `adjust_quantity`
truncates downward (floor, never rounding up) to the decimal precision given
by `-log10 stepSize` rounded to the nearest integer (the last two conjuncts
state `|log10 stepSize + precision stepSize| ≤ 1/2` over `ℚ`), and returns
`0` exactly when the truncated value is strictly below `minQty`, otherwise
the truncated value. -/
theorem C6_adjust_quantity_floor (q s mq : ℚ) (hq : 0 < q) (hs : 0 < s)
    (hmq : 0 < mq) :
    (adjust_quantity q s mq =
      if (⌊q * 10 ^ precision s⌋ : ℚ) / 10 ^ precision s < mq then 0
      else (⌊q * 10 ^ precision s⌋ : ℚ) / 10 ^ precision s) ∧
    ((⌊q * 10 ^ precision s⌋ : ℚ) / 10 ^ precision s ≤ q) ∧
    adjust_quantity q s mq ≤ q ∧
    (10:ℚ) ^ (-2 * precision s - 1) ≤ s * s ∧
    s * s ≤ (10:ℚ) ^ (-2 * precision s + 1) := by
  refine ⟨rfl, floor_prec_le q _, ?_, (precision_bounds s hs).1,
    (precision_bounds s hs).2⟩
  unfold adjust_quantity
  dsimp only []
  split
  · exact hq.le
  · exact floor_prec_le q _

/-- Witness for C6 at `rawQuantity = 5/2`, `stepSize = minQty = 1/1000`. -/
theorem C6_adjust_quantity_floor_witness :
    (0:ℚ) < 5/2 ∧ (0:ℚ) < 1/1000 ∧ (0:ℚ) < 1/1000 ∧
    ((adjust_quantity (5/2) (1/1000) (1/1000) =
      if (⌊(5/2 : ℚ) * 10 ^ precision (1/1000)⌋ : ℚ) / 10 ^ precision (1/1000) < 1/1000
      then 0
      else (⌊(5/2 : ℚ) * 10 ^ precision (1/1000)⌋ : ℚ) / 10 ^ precision (1/1000)) ∧
    ((⌊(5/2 : ℚ) * 10 ^ precision (1/1000)⌋ : ℚ) / 10 ^ precision (1/1000) ≤ 5/2) ∧
    adjust_quantity (5/2) (1/1000) (1/1000) ≤ 5/2 ∧
    (10:ℚ) ^ (-2 * precision (1/1000) - 1) ≤ (1/1000 : ℚ) * (1/1000) ∧
    (1/1000 : ℚ) * (1/1000) ≤ (10:ℚ) ^ (-2 * precision (1/1000) + 1)) :=
  ⟨by norm_num, by norm_num, by norm_num,
    C6_adjust_quantity_floor (5/2) (1/1000) (1/1000) (by norm_num) (by norm_num)
      (by norm_num)⟩

/-! ## Concrete evaluation helpers -/

/-- Floor of a rational that happens to be an integer. -/
theorem floor_cast_eval {a : ℚ} {n : ℤ} (h : a = (n : ℚ)) : ⌊a⌋ = n := by
  rw [h, Int.floor_intCast]

/-- The derived precision for `stepSize = 0.001` is `3` decimal digits. -/
theorem precision_milli : precision (1/1000 : ℚ) = 3 := by
  have h : (1/1000 : ℚ) * (1/1000) = ((10:ℕ) : ℚ) ^ (-6 : ℤ) := by norm_num
  rw [precision, h, Int.log_zpow (by norm_num : 1 < 10),
    show (((-6 : ℤ)) : ℚ) / 2 = ((-3 : ℤ) : ℚ) by norm_num, Int.ceil_intCast]
  norm_num

/-! ## Claim C8: close-position semantics -/

/-- Claim C8: with no nonzero position entry, `close_position_for_symbol`
returns the no-position success and issues only the position query; with a
nonzero position it cancels open orders and submits a market order on the
opposing side (`SELL` for positive, `BUY` for negative) with quantity the
absolute value of the signed amount. -/
theorem C8_close_sides (exFlat exPos : Exchange) (symbol : String)
    (ps0 ps : List PosInfo) (p : PosInfo) (o : OrderResp)
    (h1 : exFlat.futures_position_information symbol = .ok ps0)
    (h2 : ps0.find? (fun q => decide (q.symbol = symbol ∧ q.positionAmt ≠ 0)) = none)
    (h3 : exPos.futures_position_information symbol = .ok ps)
    (h4 : ps.find? (fun q => decide (q.symbol = symbol ∧ q.positionAmt ≠ 0)) = some p)
    (h5 : exPos.futures_cancel_all_open_orders symbol = .ok ())
    (h6 : exPos.futures_create_order symbol
        (if 0 < p.positionAmt then "SELL" else "BUY") "MARKET" |p.positionAmt|
        none none = .ok o) :
    close_position_for_symbol exFlat symbol =
      ((true, .msg "No position to close."), [.positionInfo symbol]) ∧
    close_position_for_symbol exPos symbol =
      ((true, .orderId o.orderId),
       [.positionInfo symbol, .cancelAllOpenOrders symbol,
        .createOrder symbol (if 0 < p.positionAmt then "SELL" else "BUY")
          "MARKET" |p.positionAmt| none none]) := by
  constructor
  · simp only [close_position_for_symbol, h1, h2]
  · simp only [close_position_for_symbol, h3, h4, h5, h6]

/-- Witness for C8: flat position yields `NoPosition`; `positionAmt = 1.5`
yields a `SELL` market order of `1.5`; `positionAmt = -2.0` yields a `BUY`
market order of `2.0`. -/
theorem C8_close_sides_witness :
    close_position_for_symbol exFlat0 "BTCUSDT" =
      ((true, .msg "No position to close."), [.positionInfo "BTCUSDT"]) ∧
    close_position_for_symbol exLong15 "BTCUSDT" =
      ((true, .orderId 7),
       [.positionInfo "BTCUSDT", .cancelAllOpenOrders "BTCUSDT",
        .createOrder "BTCUSDT" "SELL" "MARKET" (3/2) none none]) ∧
    close_position_for_symbol exShort2 "BTCUSDT" =
      ((true, .orderId 7),
       [.positionInfo "BTCUSDT", .cancelAllOpenOrders "BTCUSDT",
        .createOrder "BTCUSDT" "BUY" "MARKET" 2 none none]) := by
  have h2 : close_position_for_symbol exLong15 "BTCUSDT" =
      ((true, CloseDetail.orderId 7),
       [.positionInfo "BTCUSDT", .cancelAllOpenOrders "BTCUSDT",
        .createOrder "BTCUSDT" (if (0:ℚ) < 3/2 then "SELL" else "BUY") "MARKET"
          |(3/2 : ℚ)| none none]) :=
    (C8_close_sides exFlat0 exLong15 "BTCUSDT" [⟨"BTCUSDT", 0⟩] [⟨"BTCUSDT", 3/2⟩]
      ⟨"BTCUSDT", 3/2⟩ ⟨7⟩ rfl (by simp [List.find?]) rfl (by simp [List.find?])
      rfl rfl).2
  have h3 : close_position_for_symbol exShort2 "BTCUSDT" =
      ((true, CloseDetail.orderId 7),
       [.positionInfo "BTCUSDT", .cancelAllOpenOrders "BTCUSDT",
        .createOrder "BTCUSDT" (if (0:ℚ) < -2 then "SELL" else "BUY") "MARKET"
          |(-2 : ℚ)| none none]) :=
    (C8_close_sides exFlat0 exShort2 "BTCUSDT" [⟨"BTCUSDT", 0⟩] [⟨"BTCUSDT", -2⟩]
      ⟨"BTCUSDT", -2⟩ ⟨7⟩ rfl (by simp [List.find?]) rfl (by simp [List.find?])
      rfl rfl).2
  rw [if_pos (by norm_num : (0:ℚ) < 3/2),
    show |(3/2 : ℚ)| = 3/2 from abs_of_pos (by norm_num)] at h2
  rw [if_neg (by norm_num : ¬ (0:ℚ) < -2),
    show |(-2 : ℚ)| = 2 from by rw [abs_of_neg (by norm_num : (-2:ℚ) < 0)]; norm_num] at h3
  exact ⟨(C8_close_sides exFlat0 exLong15 "BTCUSDT" [⟨"BTCUSDT", 0⟩]
      [⟨"BTCUSDT", 3/2⟩] ⟨"BTCUSDT", 3/2⟩ ⟨7⟩ rfl (by simp [List.find?]) rfl
      (by simp [List.find?]) rfl rfl).1, h2, h3⟩

/-! ## Claim C5: cancel-all failure during close (corrected) -/

/-- Claim C5 (amended): an exception during the cancel-all-open-orders step
aborts the close; the opposing market order is not submitted.  An API error
with code `-2022` is reported as success with a sentinel message, any other
API error yields failure with its message. -/
theorem C5_cancel_abort (ex ex2 : Exchange) (symbol : String)
    (ps : List PosInfo) (p : PosInfo) (c : ℤ) (msg msg2 : String)
    (hpos : ex.futures_position_information symbol = .ok ps)
    (hfind : ps.find? (fun q => decide (q.symbol = symbol ∧ q.positionAmt ≠ 0)) = some p)
    (hcancel : ex.futures_cancel_all_open_orders symbol = .error (.api c msg))
    (hc : c ≠ -2022)
    (hpos2 : ex2.futures_position_information symbol = .ok ps)
    (hcancel2 : ex2.futures_cancel_all_open_orders symbol = .error (.api (-2022) msg2)) :
    close_position_for_symbol ex symbol =
      ((false, .errMsg msg), [.positionInfo symbol, .cancelAllOpenOrders symbol]) ∧
    close_position_for_symbol ex2 symbol =
      ((true, .msg "Position likely already closed."),
       [.positionInfo symbol, .cancelAllOpenOrders symbol]) := by
  constructor
  · simp only [close_position_for_symbol, hpos, hfind, hcancel, handleCloseError]
    rw [if_neg hc]
  · simp only [close_position_for_symbol, hpos2, hfind, hcancel2, handleCloseError]
    simp

/-- Witness for C5 (amended) at a long position of `1.5`. -/
theorem C5_cancel_abort_witness :
    close_position_for_symbol exCancelFail "BTCUSDT" =
      ((false, .errMsg "cancel failed"),
       [.positionInfo "BTCUSDT", .cancelAllOpenOrders "BTCUSDT"]) ∧
    close_position_for_symbol exCancel2022 "BTCUSDT" =
      ((true, .msg "Position likely already closed."),
       [.positionInfo "BTCUSDT", .cancelAllOpenOrders "BTCUSDT"]) :=
  C5_cancel_abort exCancelFail exCancel2022 "BTCUSDT" [⟨"BTCUSDT", 3/2⟩]
    ⟨"BTCUSDT", 3/2⟩ (-1000) "cancel failed" "reduce only rejected"
    rfl (by simp [List.find?]) rfl (by norm_num) rfl rfl

/-- Counterexample to claim C5 as stated: with an open position of `1.5` and
a failing cancel-all call, the close aborts with failure and the opposing
`SELL` market order is never submitted. -/
theorem C5_counterexample :
    close_position_for_symbol exCancelFail "BTCUSDT" =
      ((false, .errMsg "cancel failed"),
       [.positionInfo "BTCUSDT", .cancelAllOpenOrders "BTCUSDT"]) ∧
    ExCall.createOrder "BTCUSDT" "SELL" "MARKET" (3/2) none none ∉
      (close_position_for_symbol exCancelFail "BTCUSDT").2 := by
  have h : close_position_for_symbol exCancelFail "BTCUSDT" =
      ((false, .errMsg "cancel failed"),
       [.positionInfo "BTCUSDT", .cancelAllOpenOrders "BTCUSDT"]) := by
    simp only [close_position_for_symbol,
      show exCancelFail.futures_position_information "BTCUSDT"
          = .ok [⟨"BTCUSDT", 3/2⟩] from rfl,
      show List.find? (fun q => decide (q.symbol = "BTCUSDT" ∧ q.positionAmt ≠ 0))
          [(⟨"BTCUSDT", 3/2⟩ : PosInfo)] = some ⟨"BTCUSDT", 3/2⟩ from by
        simp [List.find?],
      show exCancelFail.futures_cancel_all_open_orders "BTCUSDT"
          = .error (.api (-1000) "cancel failed") from rfl,
      handleCloseError]
    rw [if_neg (by norm_num : (-1000 : ℤ) ≠ -2022)]
  refine ⟨h, ?_⟩
  rw [h]
  simp

/-! ## Claim C1: close-then-open ordering -/

/-- Claim C1: for a directional request the position-close step runs first:
the request trace is the close-step trace (which begins with the position
query and contains no leverage or mark-price call) followed by the opening
calls; when the close step reports failure the request ends with the 500
error response and the trace is exactly the close-step trace — no leverage
change, mark-price fetch or market-order submission follows. -/
theorem C1_close_then_open (ex ex2 : Exchange) (sec : String) (cache : Cache)
    (data : WebhookData) (rawSym rawSide : String)
    (hsec : data.secret = some sec)
    (hsym : data.symbol = some rawSym)
    (hside : data.side = some rawSide)
    (hdir : (pyUpper rawSide) = "LONG" ∨ (pyUpper rawSide) = "BUY" ∨
      (pyUpper rawSide) = "SHORT" ∨ (pyUpper rawSide) = "SELL")
    (d : CloseDetail) (cc : List ExCall)
    (hfail : close_position_for_symbol ex (pyUpper rawSym) = ((false, d), cc))
    (d2 : CloseDetail) (cc2 : List ExCall)
    (hok : close_position_for_symbol ex2 (pyUpper rawSym) = ((true, d2), cc2)) :
    webhook ex sec cache (some data) =
      (⟨.errorMsg "No se pudo cerrar la posicion existente antes de abrir una nueva.",
        500⟩, cache, cc) ∧
    cc.head? = some (.positionInfo (pyUpper rawSym)) ∧
    cc.all (fun c => !c.isChangeLeverage && !c.isMarkPrice) = true ∧
    (webhook ex2 sec cache (some data)).2.2 =
      cc2 ++ (tryOpen ex2 cache data (pyUpper rawSym) (pyUpper rawSide)).2.2 ∧
    cc2.head? = some (.positionInfo (pyUpper rawSym)) := by
  have hhead : cc.head? = some (.positionInfo (pyUpper rawSym)) := by
    have h := close_calls_head ex (pyUpper rawSym)
    rw [hfail] at h
    exact h
  have hhead2 : cc2.head? = some (.positionInfo (pyUpper rawSym)) := by
    have h := close_calls_head ex2 (pyUpper rawSym)
    rw [hok] at h
    exact h
  have hall : cc.all (fun c => !c.isChangeLeverage && !c.isMarkPrice) = true := by
    have h := close_calls_no_open_prep ex (pyUpper rawSym)
    rw [hfail] at h
    exact h
  refine ⟨?_, hhead, hall, ?_, hhead2⟩
  · rcases hdir with h | h | h | h <;>
      simp [webhook, hsec, hsym, hside, h, hfail]
  · rcases hdir with h | h | h | h
    · rcases htry : tryOpen ex2 cache data (pyUpper rawSym) "LONG" with ⟨r, c2, oc⟩
      rcases r with e | resp <;> simp [webhook, hsec, hsym, hside, h, hok, htry]
    · rcases htry : tryOpen ex2 cache data (pyUpper rawSym) "BUY" with ⟨r, c2, oc⟩
      rcases r with e | resp <;> simp [webhook, hsec, hsym, hside, h, hok, htry]
    · rcases htry : tryOpen ex2 cache data (pyUpper rawSym) "SHORT" with ⟨r, c2, oc⟩
      rcases r with e | resp <;> simp [webhook, hsec, hsym, hside, h, hok, htry]
    · rcases htry : tryOpen ex2 cache data (pyUpper rawSym) "SELL" with ⟨r, c2, oc⟩
      rcases r with e | resp <;> simp [webhook, hsec, hsym, hside, h, hok, htry]

/-- Witness for C1: close failure aborts with 500; close success prefixes
the opening calls. -/
theorem C1_close_then_open_witness :
    dataLong.secret = some "s" ∧ dataLong.symbol = some "BTCUSDT" ∧
    dataLong.side = some "LONG" ∧
    ((pyUpper "LONG") = "LONG" ∨ (pyUpper "LONG") = "BUY" ∨
      (pyUpper "LONG") = "SHORT" ∨ (pyUpper "LONG") = "SELL") ∧
    close_position_for_symbol exPosFail (pyUpper "BTCUSDT") =
      ((false, .errMsg "api down"), [.positionInfo (pyUpper "BTCUSDT")]) ∧
    close_position_for_symbol exFlat0 (pyUpper "BTCUSDT") =
      ((true, .msg "No position to close."), [.positionInfo (pyUpper "BTCUSDT")]) ∧
    (webhook exPosFail "s" [] (some dataLong) =
      (⟨.errorMsg "No se pudo cerrar la posicion existente antes de abrir una nueva.",
        500⟩, [], [.positionInfo (pyUpper "BTCUSDT")]) ∧
    ([ExCall.positionInfo (pyUpper "BTCUSDT")]).head? =
      some (.positionInfo (pyUpper "BTCUSDT")) ∧
    ([ExCall.positionInfo (pyUpper "BTCUSDT")]).all
      (fun c => !c.isChangeLeverage && !c.isMarkPrice) = true ∧
    (webhook exFlat0 "s" [] (some dataLong)).2.2 =
      [ExCall.positionInfo (pyUpper "BTCUSDT")] ++
        (tryOpen exFlat0 [] dataLong (pyUpper "BTCUSDT") (pyUpper "LONG")).2.2 ∧
    ([ExCall.positionInfo (pyUpper "BTCUSDT")]).head? =
      some (.positionInfo (pyUpper "BTCUSDT"))) := by
  refine ⟨rfl, rfl, rfl, Or.inl (by decide), ?hf, ?ho, ?main⟩
  case hf => rfl
  case ho => rfl
  case main =>
    exact C1_close_then_open exPosFail exFlat0 "s" [] dataLong "BTCUSDT" "LONG"
      rfl rfl rfl (Or.inl (by decide)) (.errMsg "api down")
      [.positionInfo (pyUpper "BTCUSDT")] rfl (.msg "No position to close.")
      [.positionInfo (pyUpper "BTCUSDT")] rfl

/-! ## Claim C10: unparseable optional tsl field -/

/-- Claim C10: on a directional request whose optional `tsl` field is present
but not parseable as a number, `float()` raises `ValueError` and the whole
request is rejected with 400 and no entry order — but only after the
position-close step has already executed against the exchange (the trace is
exactly the close-step trace, which starts with the position query). -/
theorem C10_bad_tsl (ex : Exchange) (sec : String) (cache : Cache)
    (data : WebhookData) (rawSym rawSide : String) (L U : ℚ) (s : String)
    (d : CloseDetail) (cc : List ExCall)
    (hsec : data.secret = some sec)
    (hsym : data.symbol = some rawSym)
    (hside : data.side = some rawSide)
    (hdir : pyUpper rawSide = "LONG" ∨ pyUpper rawSide = "BUY" ∨
      pyUpper rawSide = "SHORT" ∨ pyUpper rawSide = "SELL")
    (hclose : close_position_for_symbol ex (pyUpper rawSym) = ((true, d), cc))
    (hlev : data.lev = some (.num L))
    (husdt : data.usdt = some (.num U))
    (htsl : data.tsl = some (.str s)) :
    webhook ex sec cache (some data) =
      (⟨.errorMsg ("Datos incompletos o invalidos para abrir orden: " ++
          ("could not convert string to float: " ++ s)), 400⟩, cache, cc) ∧
    cc.head? = some (.positionInfo (pyUpper rawSym)) := by
  have hhead : cc.head? = some (.positionInfo (pyUpper rawSym)) := by
    have h := close_calls_head ex (pyUpper rawSym)
    rw [hclose] at h
    exact h
  refine ⟨?_, hhead⟩
  rcases hdir with h | h | h | h <;>
    simp [webhook, tryOpen, openErrorResp, pyFloat, hsec, hsym, hside, h, hclose,
      hlev, husdt, htsl]

/-- Witness for C10 at `tsl = "abc"` over a flat position. -/
theorem C10_bad_tsl_witness :
    webhook exFlat0 "s" [] (some dataBadTsl) =
      (⟨.errorMsg ("Datos incompletos o invalidos para abrir orden: " ++
          ("could not convert string to float: " ++ "abc")), 400⟩, [],
       [.positionInfo (pyUpper "BTCUSDT")]) ∧
    ([ExCall.positionInfo (pyUpper "BTCUSDT")]).head? =
      some (.positionInfo (pyUpper "BTCUSDT")) :=
  C10_bad_tsl exFlat0 "s" [] dataBadTsl "BTCUSDT" "LONG" 10 100 "abc"
    (.msg "No position to close.") [.positionInfo (pyUpper "BTCUSDT")]
    rfl rfl rfl (Or.inl rfl) (by decide) rfl rfl rfl

/-! ## Claim C3: validation before exchange contact (corrected) -/

/-- Claim C3 (amended): requests failing pre-dispatch validation — non-object
JSON, bad secret, missing `symbol`, missing `side` — are answered without
any exchange call; but a directional request missing the (required) `lev`
field is rejected with 400 only after the position-close step has already
issued exchange calls. -/
theorem C3_validation (ex : Exchange) (sec : String) (cache : Cache)
    (dataBadSecret dataNoSym dataNoSide dataNoLev : WebhookData)
    (rawSym rawSide : String) (d : CloseDetail) (cc : List ExCall)
    (h1 : dataBadSecret.secret ≠ some sec)
    (h2 : dataNoSym.secret = some sec) (h3 : dataNoSym.symbol = none)
    (h4 : dataNoSide.secret = some sec) (h5 : dataNoSide.symbol = some rawSym)
    (h6 : dataNoSide.side = none)
    (h7 : dataNoLev.secret = some sec) (h8 : dataNoLev.symbol = some rawSym)
    (h9 : dataNoLev.side = some rawSide)
    (hdir : pyUpper rawSide = "LONG" ∨ pyUpper rawSide = "BUY" ∨
      pyUpper rawSide = "SHORT" ∨ pyUpper rawSide = "SELL")
    (hclose : close_position_for_symbol ex (pyUpper rawSym) = ((true, d), cc))
    (hlev : dataNoLev.lev = none) :
    webhook ex sec cache none =
      (⟨.errorMsg "JSON malformado o vacio", 400⟩, cache, []) ∧
    webhook ex sec cache (some dataBadSecret) =
      (⟨.errorMsg "No autorizado", 401⟩, cache, []) ∧
    webhook ex sec cache (some dataNoSym) =
      (⟨.errorMsg "Dato requerido faltante: symbol", 400⟩, cache, []) ∧
    webhook ex sec cache (some dataNoSide) =
      (⟨.errorMsg "Dato requerido faltante: side", 400⟩, cache, []) ∧
    webhook ex sec cache (some dataNoLev) =
      (⟨.errorMsg ("Datos incompletos o invalidos para abrir orden: " ++ "lev"),
        400⟩, cache, cc) ∧
    cc.head? = some (.positionInfo (pyUpper rawSym)) := by
  have hhead : cc.head? = some (.positionInfo (pyUpper rawSym)) := by
    have h := close_calls_head ex (pyUpper rawSym)
    rw [hclose] at h
    exact h
  refine ⟨rfl, ?_, ?_, ?_, ?_, hhead⟩
  · simp [webhook, h1]
  · simp [webhook, h2, h3]
  · simp [webhook, h4, h5, h6]
  · rcases hdir with h | h | h | h <;>
      simp [webhook, tryOpen, openErrorResp, h7, h8, h9, h, hclose, hlev]

/-- Witness for C3 (amended) over a flat position. -/
theorem C3_validation_witness :
    webhook exFlat0 "s" [] none =
      (⟨.errorMsg "JSON malformado o vacio", 400⟩, [], []) ∧
    webhook exFlat0 "s" [] (some dataBadSecret0) =
      (⟨.errorMsg "No autorizado", 401⟩, [], []) ∧
    webhook exFlat0 "s" [] (some dataNoSym0) =
      (⟨.errorMsg "Dato requerido faltante: symbol", 400⟩, [], []) ∧
    webhook exFlat0 "s" [] (some dataNoSide0) =
      (⟨.errorMsg "Dato requerido faltante: side", 400⟩, [], []) ∧
    webhook exFlat0 "s" [] (some dataNoLev0) =
      (⟨.errorMsg ("Datos incompletos o invalidos para abrir orden: " ++ "lev"),
        400⟩, [], [.positionInfo (pyUpper "BTCUSDT")]) ∧
    ([ExCall.positionInfo (pyUpper "BTCUSDT")]).head? =
      some (.positionInfo (pyUpper "BTCUSDT")) :=
  C3_validation exFlat0 "s" [] dataBadSecret0 dataNoSym0 dataNoSide0 dataNoLev0
    "BTCUSDT" "LONG" (.msg "No position to close.")
    [.positionInfo (pyUpper "BTCUSDT")] (by simp [dataBadSecret0, dataLong])
    rfl rfl rfl rfl rfl rfl rfl rfl (Or.inl rfl) (by decide) rfl

/-- Counterexample to claim C3 as stated: a directional request missing the
required `lev` field fails validation with a 400 response, yet the exchange
was already contacted (the call trace is nonempty). -/
theorem C3_counterexample :
    (webhook exFlat0 "s" [] (some dataNoLev0)).1.code = 400 ∧
    (webhook exFlat0 "s" [] (some dataNoLev0)).2.2 ≠ [] := by
  have h : webhook exFlat0 "s" [] (some dataNoLev0) =
      (⟨.errorMsg ("Datos incompletos o invalidos para abrir orden: " ++ "lev"),
        400⟩, [], [.positionInfo "BTCUSDT"]) := by
    simp [webhook, tryOpen, openErrorResp, dataNoLev0, dataLong,
      show pyUpper "BTCUSDT" = "BTCUSDT" from rfl,
      show pyUpper "LONG" = "LONG" from rfl,
      show close_position_for_symbol exFlat0 "BTCUSDT" =
        ((true, CloseDetail.msg "No position to close."),
         [ExCall.positionInfo "BTCUSDT"]) from by decide]
  rw [h]
  simp

/-! ## More evaluation helpers -/

/-- Evaluate `pyIntTrunc` on a nonnegative integral rational. -/
theorem pyIntTrunc_nonneg_eval {q : ℚ} {n : ℤ} (h : q = (n : ℚ)) (hn : 0 ≤ q) :
    pyIntTrunc q = n := by
  rw [pyIntTrunc, if_pos hn, h, Int.floor_intCast]

/-- Evaluate `pyIntTrunc` on a negative integral rational. -/
theorem pyIntTrunc_neg_eval {q : ℚ} {n : ℤ} (h : q = (n : ℚ)) (hn : ¬ 0 ≤ q) :
    pyIntTrunc q = n := by
  rw [pyIntTrunc, if_neg hn, h, Int.ceil_intCast]

/-- Floors of values in `[0, 1)` vanish. -/
theorem floor_small {a : ℚ} (h0 : 0 ≤ a) (h1 : a < 1) : ⌊a⌋ = 0 := by
  rw [Int.floor_eq_zero_iff]
  exact ⟨h0, h1⟩

/-- Evaluate `adjust_quantity` at `stepSize = minQty = 1/1000` when the
scaled quantity is an integer `n` with `n/1000` not below the minimum. -/
theorem adjust_quantity_milli_eval (q : ℚ) (n : ℤ) (h : q * 1000 = (n : ℚ))
    (hn : ¬ ((n : ℚ) / 1000 < 1/1000)) :
    adjust_quantity q (1/1000) (1/1000) = (n : ℚ) / 1000 := by
  unfold adjust_quantity
  dsimp only []
  rw [precision_milli, show (10:ℚ) ^ (3:ℤ) = 1000 from by norm_num,
    floor_cast_eval h, if_neg hn]

/-- Evaluate `adjust_quantity` at `stepSize = minQty = 1/1000` when the
scaled quantity lies in `[0, 1)`: the result is `0`. -/
theorem adjust_quantity_milli_zero (q : ℚ) (h0 : 0 ≤ q * 1000)
    (h1 : q * 1000 < 1) :
    adjust_quantity q (1/1000) (1/1000) = 0 := by
  unfold adjust_quantity
  dsimp only []
  rw [precision_milli, show (10:ℚ) ^ (3:ℤ) = 1000 from by norm_num,
    floor_small h0 h1]
  norm_num

/-! ## Generic successful-open scenario -/

/-- When a directional request passes all gates (close succeeded, fields
numeric, filters found, leverage and mark-price calls succeed, the
normalized quantity is positive, the entry order succeeds) and no `tsl`
field is present (so the trailing-stop percent defaults to `0`, outside
`[0.1, 5]`), the webhook answers 200 with the entry order id and the trace
is the close calls, the symbol-info calls, the leverage change, the
mark-price fetch and the entry market order. -/
theorem webhook_open_success (ex : Exchange) (sec : String) (cache : Cache)
    (data : WebhookData) (rawSym rawSide : String) (L U : ℚ)
    (i : SymbolFilters) (cache2 : Cache) (ci : List ExCall) (P : ℚ)
    (o : OrderResp) (d : CloseDetail) (cc : List ExCall) (q : ℚ)
    (hsec : data.secret = some sec)
    (hsym : data.symbol = some rawSym)
    (hside : data.side = some rawSide)
    (hdir : pyUpper rawSide = "LONG" ∨ pyUpper rawSide = "BUY" ∨
      pyUpper rawSide = "SHORT" ∨ pyUpper rawSide = "SELL")
    (hclose : close_position_for_symbol ex (pyUpper rawSym) = ((true, d), cc))
    (hlev : data.lev = some (.num L))
    (husdt : data.usdt = some (.num U))
    (htsl : data.tsl = none)
    (hinfo : get_symbol_info ex cache (pyUpper rawSym) = (.ok (some i), cache2, ci))
    (hchg : ex.futures_change_leverage (pyUpper rawSym) (pyIntTrunc L) = .ok ())
    (hmark : ex.futures_mark_price (pyUpper rawSym) = .ok P)
    (hP : ¬ P = 0)
    (hq : adjust_quantity (U * ((pyIntTrunc L : ℤ) : ℚ) / P) i.stepSize i.minQty = q)
    (hqpos : 0 < q)
    (hentry : ex.futures_create_order (pyUpper rawSym) (entrySide (pyUpper rawSide))
      "MARKET" q none none = .ok o) :
    webhook ex sec cache (some data) =
      (⟨.successOpen o.orderId "Operacion completada", 200⟩, cache2,
       cc ++ (ci ++ [.changeLeverage (pyUpper rawSym) (pyIntTrunc L),
         .markPrice (pyUpper rawSym),
         .createOrder (pyUpper rawSym) (entrySide (pyUpper rawSide)) "MARKET" q
           none none])) := by
  have ne1 : ¬ ("LONG" : String) = "CLOSE" := by decide
  have ne2 : ¬ ("BUY" : String) = "CLOSE" := by decide
  have ne3 : ¬ ("SHORT" : String) = "CLOSE" := by decide
  have ne4 : ¬ ("SELL" : String) = "CLOSE" := by decide
  rcases hdir with h | h | h | h <;>
    · rw [h] at hentry
      norm_num [webhook, tryOpen, pyFloat, hsec, hsym, hside, h, hclose, hlev,
        husdt, htsl, hinfo, hchg, hmark, hP, hq, hqpos.not_le, hentry,
        ne1, ne2, ne3, ne4]

/-! ## Claim C7: opening-field validation (corrected) -/

/-- Claim C7 (amended): the opening phase requires `lev` and `usdt` to be
present and parseable as numbers — a non-numeric `lev` or a missing `usdt`
is rejected with 400 and no call follows the close step — and a normalized
quantity that is zero (or negative) is rejected with 400 after only the
symbol-info, leverage and mark-price calls, with no market order submitted.
No `leverage ≥ 1` or `usdtAmount > 0` validation exists (see the
counterexample). -/
theorem C7_opening_validation (ex : Exchange) (sec : String) (cache : Cache)
    (dataA dataB dataC : WebhookData) (rawSym rawSide : String)
    (sA : String) (LB LC UC : ℚ) (i : SymbolFilters) (cache2 : Cache)
    (ci : List ExCall) (P : ℚ) (d : CloseDetail) (cc : List ExCall)
    (hA1 : dataA.secret = some sec) (hA2 : dataA.symbol = some rawSym)
    (hA3 : dataA.side = some rawSide) (hA4 : dataA.lev = some (.str sA))
    (hB1 : dataB.secret = some sec) (hB2 : dataB.symbol = some rawSym)
    (hB3 : dataB.side = some rawSide) (hB4 : dataB.lev = some (.num LB))
    (hB5 : dataB.usdt = none)
    (hC1 : dataC.secret = some sec) (hC2 : dataC.symbol = some rawSym)
    (hC3 : dataC.side = some rawSide) (hC4 : dataC.lev = some (.num LC))
    (hC5 : dataC.usdt = some (.num UC)) (hC6 : dataC.tsl = none)
    (hdir : pyUpper rawSide = "LONG" ∨ pyUpper rawSide = "BUY" ∨
      pyUpper rawSide = "SHORT" ∨ pyUpper rawSide = "SELL")
    (hclose : close_position_for_symbol ex (pyUpper rawSym) = ((true, d), cc))
    (hinfo : get_symbol_info ex cache (pyUpper rawSym) = (.ok (some i), cache2, ci))
    (hchg : ex.futures_change_leverage (pyUpper rawSym) (pyIntTrunc LC) = .ok ())
    (hmark : ex.futures_mark_price (pyUpper rawSym) = .ok P)
    (hP : ¬ P = 0)
    (hq : adjust_quantity (UC * ((pyIntTrunc LC : ℤ) : ℚ) / P) i.stepSize i.minQty ≤ 0) :
    webhook ex sec cache (some dataA) =
      (⟨.errorMsg ("Datos incompletos o invalidos para abrir orden: " ++
          ("could not convert string to float: " ++ sA)), 400⟩, cache, cc) ∧
    webhook ex sec cache (some dataB) =
      (⟨.errorMsg ("Datos incompletos o invalidos para abrir orden: " ++ "usdt"),
        400⟩, cache, cc) ∧
    webhook ex sec cache (some dataC) =
      (⟨.errorMsg "La cantidad calculada es demasiado pequena.", 400⟩, cache2,
       cc ++ (ci ++ [.changeLeverage (pyUpper rawSym) (pyIntTrunc LC),
         .markPrice (pyUpper rawSym)])) ∧
    (ci = [] ∨ ci = [ExCall.exchangeInfo]) := by
  have hci : ci = [] ∨ ci = [ExCall.exchangeInfo] := by
    have h := get_symbol_info_calls ex cache (pyUpper rawSym)
    rw [hinfo] at h
    exact h
  refine ⟨?_, ?_, ?_, hci⟩
  · rcases hdir with h | h | h | h <;>
      simp [webhook, tryOpen, openErrorResp, pyFloat, hA1, hA2, hA3, hA4, h, hclose]
  · rcases hdir with h | h | h | h <;>
      simp [webhook, tryOpen, openErrorResp, pyFloat, hB1, hB2, hB3, hB4, hB5,
        h, hclose]
  · have ne1 : ¬ ("LONG" : String) = "CLOSE" := by decide
    have ne2 : ¬ ("BUY" : String) = "CLOSE" := by decide
    have ne3 : ¬ ("SHORT" : String) = "CLOSE" := by decide
    have ne4 : ¬ ("SELL" : String) = "CLOSE" := by decide
    rcases hdir with h | h | h | h <;>
      norm_num [webhook, tryOpen, openErrorResp, pyFloat, hC1, hC2, hC3, hC4,
        hC5, hC6, h, hclose, hinfo, hchg, hmark, hP, hq, ne1, ne2, ne3, ne4]

/-- Witness for C7 (amended): non-numeric `lev`, missing `usdt`, and a
too-small normalized quantity, all on a flat position with cached filters. -/
theorem C7_opening_validation_witness :
    webhook exFlat0 "s" cacheBTC (some dataStrLev) =
      (⟨.errorMsg ("Datos incompletos o invalidos para abrir orden: " ++
          ("could not convert string to float: " ++ "ten")), 400⟩, cacheBTC,
       [.positionInfo (pyUpper "BTCUSDT")]) ∧
    webhook exFlat0 "s" cacheBTC (some dataNoUsdt) =
      (⟨.errorMsg ("Datos incompletos o invalidos para abrir orden: " ++ "usdt"),
        400⟩, cacheBTC, [.positionInfo (pyUpper "BTCUSDT")]) ∧
    webhook exFlat0 "s" cacheBTC (some dataTiny) =
      (⟨.errorMsg "La cantidad calculada es demasiado pequena.", 400⟩, cacheBTC,
       [.positionInfo (pyUpper "BTCUSDT")] ++ ([] ++
         [.changeLeverage (pyUpper "BTCUSDT") (pyIntTrunc 1),
          .markPrice (pyUpper "BTCUSDT")])) ∧
    (([] : List ExCall) = [] ∨ ([] : List ExCall) = [ExCall.exchangeInfo]) := by
  refine C7_opening_validation exFlat0 "s" cacheBTC dataStrLev dataNoUsdt dataTiny
    "BTCUSDT" "LONG" "ten" 10 1 (1/1000) ⟨1/10, 1/1000, 1/1000⟩ cacheBTC []
    50000 (.msg "No position to close.") [.positionInfo (pyUpper "BTCUSDT")]
    rfl rfl rfl rfl rfl rfl rfl rfl rfl rfl rfl rfl rfl rfl rfl (Or.inl rfl)
    (by decide) rfl rfl rfl (by norm_num) ?_
  have e1 : pyIntTrunc (1 : ℚ) = 1 := pyIntTrunc_nonneg_eval (by norm_num) (by norm_num)
  have e2 : (1/1000 : ℚ) * ((pyIntTrunc (1:ℚ) : ℤ) : ℚ) / 50000 = 1/50000000 := by
    rw [e1]
    norm_num
  rw [e2, adjust_quantity_milli_zero (1/50000000) (by norm_num) (by norm_num)]

/-- Counterexample to claim C7 as stated: with `lev = -1` (not an integer
`≥ 1`) and `usdt = -100` (not `> 0`), nothing is rejected — the request
succeeds with 200 and a `BUY` market order of `0.002` is submitted. -/
theorem C7_counterexample :
    (webhook exFlat0 "s" cacheBTC (some dataNegLev)).1 =
      ⟨.successOpen 7 "Operacion completada", 200⟩ ∧
    ExCall.createOrder "BTCUSDT" (entrySide "LONG") "MARKET" (1/500) none none ∈
      (webhook exFlat0 "s" cacheBTC (some dataNegLev)).2.2 := by
  have e1 : pyIntTrunc (-1 : ℚ) = -1 := pyIntTrunc_neg_eval (by norm_num) (by norm_num)
  have e2 : (-100 : ℚ) * ((pyIntTrunc (-1:ℚ) : ℤ) : ℚ) / 50000 = 1/500 := by
    rw [e1]
    norm_num
  have hq : adjust_quantity ((-100 : ℚ) * ((pyIntTrunc (-1:ℚ) : ℤ) : ℚ) / 50000)
      (1/1000) (1/1000) = 1/500 := by
    rw [e2, adjust_quantity_milli_eval (1/500) 2 (by norm_num) (by norm_num)]
    norm_num
  have h := webhook_open_success exFlat0 "s" cacheBTC dataNegLev "BTCUSDT" "LONG"
    (-1) (-100) ⟨1/10, 1/1000, 1/1000⟩ cacheBTC [] 50000 ⟨7⟩
    (.msg "No position to close.") [.positionInfo (pyUpper "BTCUSDT")] (1/500)
    rfl rfl rfl (Or.inl rfl) (by decide) rfl rfl rfl rfl rfl rfl (by norm_num)
    hq (by norm_num) rfl
  rw [h]
  constructor
  · rfl
  · simp [pyUpper]

/-! ## Claim C4: symbol metadata unavailable (corrected) -/

/-- Claim C4 (amended): on a cache miss, when the instrument-list call fails
with a `BinanceAPIException`, `get_symbol_info` returns `None` (`.ok none`);
when the call succeeds but the symbol is absent from the list, a `KeyError`
escapes from `symbol_info_cache[symbol]`.  In both cases the directional
request ends with a 400 invalid-data response (the `ValueError`/`KeyError`
handler), not a 500-class one. -/
theorem C4_symbol_info_failure (exA exB : Exchange) (sec : String) (cache : Cache)
    (data : WebhookData) (rawSym rawSide : String) (L U : ℚ)
    (dA : CloseDetail) (ccA : List ExCall) (dB : CloseDetail) (ccB : List ExCall)
    (c : ℤ) (m : String) (instrs : List SymInstr)
    (hsec : data.secret = some sec)
    (hsym : data.symbol = some rawSym)
    (hside : data.side = some rawSide)
    (hdir : pyUpper rawSide = "LONG" ∨ pyUpper rawSide = "BUY" ∨
      pyUpper rawSide = "SHORT" ∨ pyUpper rawSide = "SELL")
    (hlev : data.lev = some (.num L))
    (husdt : data.usdt = some (.num U))
    (htsl : data.tsl = none)
    (hmiss : cache.lookup (pyUpper rawSym) = none)
    (hcloseA : close_position_for_symbol exA (pyUpper rawSym) = ((true, dA), ccA))
    (hinfoA : exA.futures_exchange_info = .error (.api c m))
    (hcloseB : close_position_for_symbol exB (pyUpper rawSym) = ((true, dB), ccB))
    (hinfoB : exB.futures_exchange_info = .ok instrs)
    (hfind : instrs.find? (fun s => s.symbol == pyUpper rawSym) = none) :
    get_symbol_info exA cache (pyUpper rawSym) =
      (.ok none, cache, [.exchangeInfo]) ∧
    webhook exA sec cache (some data) =
      (⟨.errorMsg ("Datos incompletos o invalidos para abrir orden: " ++
          ("No se pudo obtener info para " ++ pyUpper rawSym)), 400⟩,
       cache, ccA ++ [.exchangeInfo]) ∧
    get_symbol_info exB cache (pyUpper rawSym) =
      (.error (.keyError (pyUpper rawSym)), cache, [.exchangeInfo]) ∧
    webhook exB sec cache (some data) =
      (⟨.errorMsg ("Datos incompletos o invalidos para abrir orden: " ++
          pyUpper rawSym), 400⟩, cache, ccB ++ [.exchangeInfo]) := by
  have hA : get_symbol_info exA cache (pyUpper rawSym) =
      (.ok none, cache, [.exchangeInfo]) := by
    simp only [get_symbol_info, hmiss, hinfoA]
  have hB : get_symbol_info exB cache (pyUpper rawSym) =
      (.error (.keyError (pyUpper rawSym)), cache, [.exchangeInfo]) := by
    simp only [get_symbol_info, hmiss, hinfoB, hfind]
  refine ⟨hA, ?_, hB, ?_⟩
  · rcases hdir with h | h | h | h <;>
      simp [webhook, tryOpen, openErrorResp, pyFloat, hsec, hsym, hside, h,
        hcloseA, hlev, husdt, htsl, hA]
  · rcases hdir with h | h | h | h <;>
      simp [webhook, tryOpen, openErrorResp, pyFloat, hsec, hsym, hside, h,
        hcloseB, hlev, husdt, htsl, hB]

/-- Witness for C4 (amended) on an empty cache and a flat position. -/
theorem C4_symbol_info_failure_witness :
    get_symbol_info exInfoFail [] (pyUpper "BTCUSDT") =
      (.ok none, [], [.exchangeInfo]) ∧
    webhook exInfoFail "s" [] (some dataLong) =
      (⟨.errorMsg ("Datos incompletos o invalidos para abrir orden: " ++
          ("No se pudo obtener info para " ++ pyUpper "BTCUSDT")), 400⟩,
       [], [.positionInfo (pyUpper "BTCUSDT")] ++ [.exchangeInfo]) ∧
    get_symbol_info exNoSym [] (pyUpper "BTCUSDT") =
      (.error (.keyError (pyUpper "BTCUSDT")), [], [.exchangeInfo]) ∧
    webhook exNoSym "s" [] (some dataLong) =
      (⟨.errorMsg ("Datos incompletos o invalidos para abrir orden: " ++
          pyUpper "BTCUSDT"), 400⟩, [],
       [.positionInfo (pyUpper "BTCUSDT")] ++ [.exchangeInfo]) :=
  C4_symbol_info_failure exInfoFail exNoSym "s" [] dataLong "BTCUSDT" "LONG"
    10 100 (.msg "No position to close.") [.positionInfo (pyUpper "BTCUSDT")]
    (.msg "No position to close.") [.positionInfo (pyUpper "BTCUSDT")]
    (-1) "exchange down" [] rfl rfl rfl (Or.inl rfl) rfl rfl rfl rfl
    (by decide) rfl (by decide) rfl rfl

/-- Counterexample to claim C4 as stated: when the instrument-list call
fails, the request is answered with 400, not a 500-class response. -/
theorem C4_counterexample :
    (webhook exInfoFail "s" [] (some dataLong)).1.code = 400 ∧
    ¬ (webhook exInfoFail "s" [] (some dataLong)).1.code = 500 := by
  have hg : get_symbol_info exInfoFail [] "BTCUSDT" =
      (.ok none, [], [.exchangeInfo]) := by
    simp only [get_symbol_info,
      show List.lookup "BTCUSDT" ([] : Cache) = none from rfl,
      show exInfoFail.futures_exchange_info =
        .error (.api (-1) "exchange down") from rfl]
  have h : webhook exInfoFail "s" [] (some dataLong) =
      (⟨.errorMsg ("Datos incompletos o invalidos para abrir orden: " ++
          ("No se pudo obtener info para " ++ "BTCUSDT")), 400⟩, [],
       [ExCall.positionInfo "BTCUSDT", ExCall.exchangeInfo]) := by
    simp [webhook, tryOpen, openErrorResp, pyFloat, dataLong,
      show pyUpper "BTCUSDT" = "BTCUSDT" from rfl,
      show pyUpper "LONG" = "LONG" from rfl,
      show close_position_for_symbol exInfoFail "BTCUSDT" =
        ((true, CloseDetail.msg "No position to close."),
         [ExCall.positionInfo "BTCUSDT"]) from by decide,
      hg]
  rw [h]
  exact ⟨rfl, by norm_num⟩

/-! ## Generic trailing-stop scenarios -/

/-- Successful open with a numeric `tsl` outside `[0.1, 5]`: the trailing
stop is skipped, the response is the plain 200 success and the trace ends at
the entry order. -/
theorem webhook_open_tsl_skip (ex : Exchange) (sec : String) (cache : Cache)
    (data : WebhookData) (rawSym rawSide : String) (L U T : ℚ)
    (i : SymbolFilters) (cache2 : Cache) (ci : List ExCall) (P : ℚ)
    (o : OrderResp) (d : CloseDetail) (cc : List ExCall) (q : ℚ)
    (hsec : data.secret = some sec)
    (hsym : data.symbol = some rawSym)
    (hside : data.side = some rawSide)
    (hdir : pyUpper rawSide = "LONG" ∨ pyUpper rawSide = "BUY" ∨
      pyUpper rawSide = "SHORT" ∨ pyUpper rawSide = "SELL")
    (hclose : close_position_for_symbol ex (pyUpper rawSym) = ((true, d), cc))
    (hlev : data.lev = some (.num L))
    (husdt : data.usdt = some (.num U))
    (htsl : data.tsl = some (.num T))
    (hinfo : get_symbol_info ex cache (pyUpper rawSym) = (.ok (some i), cache2, ci))
    (hchg : ex.futures_change_leverage (pyUpper rawSym) (pyIntTrunc L) = .ok ())
    (hmark : ex.futures_mark_price (pyUpper rawSym) = .ok P)
    (hP : ¬ P = 0)
    (hq : adjust_quantity (U * ((pyIntTrunc L : ℤ) : ℚ) / P) i.stepSize i.minQty = q)
    (hqpos : 0 < q)
    (hentry : ex.futures_create_order (pyUpper rawSym) (entrySide (pyUpper rawSide))
      "MARKET" q none none = .ok o)
    (hnr : ¬ ((0.1 : ℚ) ≤ T ∧ T ≤ 5)) :
    webhook ex sec cache (some data) =
      (⟨.successOpen o.orderId "Operacion completada", 200⟩, cache2,
       cc ++ (ci ++ [.changeLeverage (pyUpper rawSym) (pyIntTrunc L),
         .markPrice (pyUpper rawSym),
         .createOrder (pyUpper rawSym) (entrySide (pyUpper rawSide)) "MARKET" q
           none none])) := by
  have ne1 : ¬ ("LONG" : String) = "CLOSE" := by decide
  have ne2 : ¬ ("BUY" : String) = "CLOSE" := by decide
  have ne3 : ¬ ("SHORT" : String) = "CLOSE" := by decide
  have ne4 : ¬ ("SELL" : String) = "CLOSE" := by decide
  have hnr2 : ¬ ((1/10 : ℚ) ≤ T ∧ T ≤ 5) := by
    rw [show (1/10 : ℚ) = 0.1 from by norm_num]
    exact hnr
  rcases hdir with h | h | h | h <;>
    · rw [h] at hentry
      norm_num [webhook, tryOpen, pyFloat, hsec, hsym, hside, h, hclose, hlev,
        husdt, htsl, hinfo, hchg, hmark, hP, hq, hqpos.not_le, hentry, hnr2,
        ne1, ne2, ne3, ne4]

/-- Successful open with a numeric `tsl` inside `[0.1, 5]` and a successful
trailing-stop order: 200 success, and the trace ends with the trailing-stop
call on the opposing side. -/
theorem webhook_open_tsl_ok (ex : Exchange) (sec : String) (cache : Cache)
    (data : WebhookData) (rawSym rawSide : String) (L U T : ℚ)
    (i : SymbolFilters) (cache2 : Cache) (ci : List ExCall) (P : ℚ)
    (o o2 : OrderResp) (d : CloseDetail) (cc : List ExCall) (q : ℚ)
    (hsec : data.secret = some sec)
    (hsym : data.symbol = some rawSym)
    (hside : data.side = some rawSide)
    (hdir : pyUpper rawSide = "LONG" ∨ pyUpper rawSide = "BUY" ∨
      pyUpper rawSide = "SHORT" ∨ pyUpper rawSide = "SELL")
    (hclose : close_position_for_symbol ex (pyUpper rawSym) = ((true, d), cc))
    (hlev : data.lev = some (.num L))
    (husdt : data.usdt = some (.num U))
    (htsl : data.tsl = some (.num T))
    (hinfo : get_symbol_info ex cache (pyUpper rawSym) = (.ok (some i), cache2, ci))
    (hchg : ex.futures_change_leverage (pyUpper rawSym) (pyIntTrunc L) = .ok ())
    (hmark : ex.futures_mark_price (pyUpper rawSym) = .ok P)
    (hP : ¬ P = 0)
    (hq : adjust_quantity (U * ((pyIntTrunc L : ℤ) : ℚ) / P) i.stepSize i.minQty = q)
    (hqpos : 0 < q)
    (hentry : ex.futures_create_order (pyUpper rawSym) (entrySide (pyUpper rawSide))
      "MARKET" q none none = .ok o)
    (hr : (0.1 : ℚ) ≤ T ∧ T ≤ 5)
    (htslord : ex.futures_create_order (pyUpper rawSym)
      (if entrySide (pyUpper rawSide) = "BUY" then "SELL" else "BUY")
      "TRAILING_STOP_MARKET" q (some T) (some "MARK_PRICE") = .ok o2) :
    webhook ex sec cache (some data) =
      (⟨.successOpen o.orderId "Operacion completada", 200⟩, cache2,
       cc ++ (ci ++ [.changeLeverage (pyUpper rawSym) (pyIntTrunc L),
         .markPrice (pyUpper rawSym),
         .createOrder (pyUpper rawSym) (entrySide (pyUpper rawSide)) "MARKET" q
           none none,
         .createOrder (pyUpper rawSym)
           (if entrySide (pyUpper rawSide) = "BUY" then "SELL" else "BUY")
           "TRAILING_STOP_MARKET" q (some T) (some "MARK_PRICE")])) := by
  have ne1 : ¬ ("LONG" : String) = "CLOSE" := by decide
  have ne2 : ¬ ("BUY" : String) = "CLOSE" := by decide
  have ne3 : ¬ ("SHORT" : String) = "CLOSE" := by decide
  have ne4 : ¬ ("SELL" : String) = "CLOSE" := by decide
  have hr2 : (1/10 : ℚ) ≤ T ∧ T ≤ 5 := by
    rw [show (1/10 : ℚ) = 0.1 from by norm_num]
    exact hr
  rcases hdir with h | h | h | h <;>
    · rw [h] at hentry htslord
      norm_num [webhook, tryOpen, pyFloat, hsec, hsym, hside, h, hclose, hlev,
        husdt, htsl, hinfo, hchg, hmark, hP, hq, hqpos.not_le, hentry, hr2,
        htslord, ne1, ne2, ne3, ne4]

/-- Open succeeds, the in-range trailing-stop order fails with a
`BinanceAPIException`: the handler answers 500 with the exception message
and the trace ends at the failed trailing-stop call. -/
theorem webhook_open_tsl_err (ex : Exchange) (sec : String) (cache : Cache)
    (data : WebhookData) (rawSym rawSide : String) (L U T : ℚ)
    (i : SymbolFilters) (cache2 : Cache) (ci : List ExCall) (P : ℚ)
    (o : OrderResp) (d : CloseDetail) (cc : List ExCall) (q : ℚ)
    (c : ℤ) (m : String)
    (hsec : data.secret = some sec)
    (hsym : data.symbol = some rawSym)
    (hside : data.side = some rawSide)
    (hdir : pyUpper rawSide = "LONG" ∨ pyUpper rawSide = "BUY" ∨
      pyUpper rawSide = "SHORT" ∨ pyUpper rawSide = "SELL")
    (hclose : close_position_for_symbol ex (pyUpper rawSym) = ((true, d), cc))
    (hlev : data.lev = some (.num L))
    (husdt : data.usdt = some (.num U))
    (htsl : data.tsl = some (.num T))
    (hinfo : get_symbol_info ex cache (pyUpper rawSym) = (.ok (some i), cache2, ci))
    (hchg : ex.futures_change_leverage (pyUpper rawSym) (pyIntTrunc L) = .ok ())
    (hmark : ex.futures_mark_price (pyUpper rawSym) = .ok P)
    (hP : ¬ P = 0)
    (hq : adjust_quantity (U * ((pyIntTrunc L : ℤ) : ℚ) / P) i.stepSize i.minQty = q)
    (hqpos : 0 < q)
    (hentry : ex.futures_create_order (pyUpper rawSym) (entrySide (pyUpper rawSide))
      "MARKET" q none none = .ok o)
    (hr : (0.1 : ℚ) ≤ T ∧ T ≤ 5)
    (htslfail : ex.futures_create_order (pyUpper rawSym)
      (if entrySide (pyUpper rawSide) = "BUY" then "SELL" else "BUY")
      "TRAILING_STOP_MARKET" q (some T) (some "MARK_PRICE") = .error (.api c m)) :
    webhook ex sec cache (some data) =
      (⟨.errorMsg m, 500⟩, cache2,
       cc ++ (ci ++ [.changeLeverage (pyUpper rawSym) (pyIntTrunc L),
         .markPrice (pyUpper rawSym),
         .createOrder (pyUpper rawSym) (entrySide (pyUpper rawSide)) "MARKET" q
           none none,
         .createOrder (pyUpper rawSym)
           (if entrySide (pyUpper rawSide) = "BUY" then "SELL" else "BUY")
           "TRAILING_STOP_MARKET" q (some T) (some "MARK_PRICE")])) := by
  have ne1 : ¬ ("LONG" : String) = "CLOSE" := by decide
  have ne2 : ¬ ("BUY" : String) = "CLOSE" := by decide
  have ne3 : ¬ ("SHORT" : String) = "CLOSE" := by decide
  have ne4 : ¬ ("SELL" : String) = "CLOSE" := by decide
  have hr2 : (1/10 : ℚ) ≤ T ∧ T ≤ 5 := by
    rw [show (1/10 : ℚ) = 0.1 from by norm_num]
    exact hr
  rcases hdir with h | h | h | h <;>
    · rw [h] at hentry htslfail
      norm_num [webhook, tryOpen, openErrorResp, pyFloat, hsec, hsym, hside, h,
        hclose, hlev, husdt, htsl, hinfo, hchg, hmark, hP, hq, hqpos.not_le,
        hentry, hr2, htslfail, ne1, ne2, ne3, ne4]

/-! ## Claim C2: trailing-stop failure after a successful entry (corrected) -/

/-- Claim C2 (amended): when the entry market order has succeeded and the
in-range trailing-stop order then fails with a `BinanceAPIException`, the
request is answered with a 500 error carrying the exception message — not
with the 200 success the spec promises.  The entry order is not rolled back:
the trace still contains the entry market order and simply ends at the
failed trailing-stop call; no further exchange call is issued. -/
theorem C2_tsl_failure_fatal (ex : Exchange) (sec : String) (cache : Cache)
    (data : WebhookData) (rawSym rawSide : String) (L U T : ℚ)
    (i : SymbolFilters) (cache2 : Cache) (ci : List ExCall) (P : ℚ)
    (o : OrderResp) (d : CloseDetail) (cc : List ExCall) (q : ℚ)
    (c : ℤ) (m : String)
    (hsec : data.secret = some sec)
    (hsym : data.symbol = some rawSym)
    (hside : data.side = some rawSide)
    (hdir : pyUpper rawSide = "LONG" ∨ pyUpper rawSide = "BUY" ∨
      pyUpper rawSide = "SHORT" ∨ pyUpper rawSide = "SELL")
    (hclose : close_position_for_symbol ex (pyUpper rawSym) = ((true, d), cc))
    (hlev : data.lev = some (.num L))
    (husdt : data.usdt = some (.num U))
    (htsl : data.tsl = some (.num T))
    (hinfo : get_symbol_info ex cache (pyUpper rawSym) = (.ok (some i), cache2, ci))
    (hchg : ex.futures_change_leverage (pyUpper rawSym) (pyIntTrunc L) = .ok ())
    (hmark : ex.futures_mark_price (pyUpper rawSym) = .ok P)
    (hP : ¬ P = 0)
    (hq : adjust_quantity (U * ((pyIntTrunc L : ℤ) : ℚ) / P) i.stepSize i.minQty = q)
    (hqpos : 0 < q)
    (hentry : ex.futures_create_order (pyUpper rawSym) (entrySide (pyUpper rawSide))
      "MARKET" q none none = .ok o)
    (hr : (0.1 : ℚ) ≤ T ∧ T ≤ 5)
    (htslfail : ex.futures_create_order (pyUpper rawSym)
      (if entrySide (pyUpper rawSide) = "BUY" then "SELL" else "BUY")
      "TRAILING_STOP_MARKET" q (some T) (some "MARK_PRICE") = .error (.api c m)) :
    webhook ex sec cache (some data) =
      (⟨.errorMsg m, 500⟩, cache2,
       cc ++ (ci ++ [.changeLeverage (pyUpper rawSym) (pyIntTrunc L),
         .markPrice (pyUpper rawSym),
         .createOrder (pyUpper rawSym) (entrySide (pyUpper rawSide)) "MARKET" q
           none none,
         .createOrder (pyUpper rawSym)
           (if entrySide (pyUpper rawSide) = "BUY" then "SELL" else "BUY")
           "TRAILING_STOP_MARKET" q (some T) (some "MARK_PRICE")])) :=
  webhook_open_tsl_err ex sec cache data rawSym rawSide L U T i cache2 ci P o d
    cc q c m hsec hsym hside hdir hclose hlev husdt htsl hinfo hchg hmark hP hq
    hqpos hentry hr htslfail

/-- The normalized quantity of the standard witness scenario:
`usdt 100, lev 10, mark 50000, step 0.001` gives `0.02`. -/
theorem witness_quantity_eval :
    adjust_quantity ((100 : ℚ) * ((pyIntTrunc (10:ℚ) : ℤ) : ℚ) / 50000)
      (1/1000) (1/1000) = 1/50 := by
  have e1 : pyIntTrunc (10 : ℚ) = 10 :=
    pyIntTrunc_nonneg_eval (by norm_num) (by norm_num)
  have e2 : (100 : ℚ) * ((pyIntTrunc (10:ℚ) : ℤ) : ℚ) / 50000 = 1/50 := by
    rw [e1]
    norm_num
  rw [e2, adjust_quantity_milli_eval (1/50) 20 (by norm_num) (by norm_num)]
  norm_num

/-- Witness for C2 (amended): entry succeeds, trailing stop fails, request
answered 500 with the entry order still in the trace. -/
theorem C2_tsl_failure_fatal_witness :
    webhook exTslFail "s" cacheBTC (some dataTsl1) =
      (⟨.errorMsg "tsl rejected", 500⟩, cacheBTC,
       [.positionInfo (pyUpper "BTCUSDT")] ++ ([] ++
         [.changeLeverage (pyUpper "BTCUSDT") (pyIntTrunc 10),
          .markPrice (pyUpper "BTCUSDT"),
          .createOrder (pyUpper "BTCUSDT") (entrySide (pyUpper "LONG")) "MARKET"
            (1/50) none none,
          .createOrder (pyUpper "BTCUSDT")
            (if entrySide (pyUpper "LONG") = "BUY" then "SELL" else "BUY")
            "TRAILING_STOP_MARKET" (1/50) (some 1) (some "MARK_PRICE")])) :=
  C2_tsl_failure_fatal exTslFail "s" cacheBTC dataTsl1 "BTCUSDT" "LONG" 10 100 1
    ⟨1/10, 1/1000, 1/1000⟩ cacheBTC [] 50000 ⟨7⟩
    (.msg "No position to close.") [.positionInfo (pyUpper "BTCUSDT")] (1/50)
    (-1102) "tsl rejected" rfl rfl rfl (Or.inl rfl) (by decide) rfl rfl rfl
    rfl rfl rfl (by norm_num) witness_quantity_eval (by norm_num) rfl
    (by norm_num) rfl

/-- Counterexample to claim C2 as stated: the entry order succeeded (it is
in the trace) and the trailing stop failed, yet the response code is 500,
not the claimed 200 success with the entry order id. -/
theorem C2_counterexample :
    ExCall.createOrder "BTCUSDT" (entrySide "LONG") "MARKET" (1/50) none none ∈
      (webhook exTslFail "s" cacheBTC (some dataTsl1)).2.2 ∧
    (webhook exTslFail "s" cacheBTC (some dataTsl1)).1.code = 500 ∧
    ¬ (webhook exTslFail "s" cacheBTC (some dataTsl1)).1.code = 200 := by
  have h := webhook_open_tsl_err exTslFail "s" cacheBTC dataTsl1 "BTCUSDT"
    "LONG" 10 100 1 ⟨1/10, 1/1000, 1/1000⟩ cacheBTC [] 50000 ⟨7⟩
    (.msg "No position to close.") [.positionInfo (pyUpper "BTCUSDT")] (1/50)
    (-1102) "tsl rejected" rfl rfl rfl (Or.inl rfl) (by decide) rfl rfl rfl
    rfl rfl rfl (by norm_num) witness_quantity_eval (by norm_num) rfl
    (by norm_num) rfl
  rw [show pyUpper "BTCUSDT" = "BTCUSDT" from rfl,
    show pyUpper "LONG" = "LONG" from rfl] at h
  rw [h]
  refine ⟨by simp, rfl, by norm_num⟩

/-! ## Claim C9: trailing-stop range gate -/

/-- Claim C9: after a successful entry order, a trailing-stop order — on the
opposing side, with the given callback rate, referenced against mark price —
is submitted if and only if the numeric trailing-stop percent lies in the
inclusive range `[0.1, 5]`; a numeric value outside the range is silently
skipped and the request still succeeds with the entry order id (`htslord`
says the trailing-stop order would succeed if attempted, so the 200 outcome
holds in both cases). -/
theorem C9_tsl_range (ex : Exchange) (sec : String) (cache : Cache)
    (data : WebhookData) (rawSym rawSide : String) (L U T : ℚ)
    (i : SymbolFilters) (cache2 : Cache) (ci : List ExCall) (P : ℚ)
    (o o2 : OrderResp) (d : CloseDetail) (cc : List ExCall) (q : ℚ)
    (hsec : data.secret = some sec)
    (hsym : data.symbol = some rawSym)
    (hside : data.side = some rawSide)
    (hdir : pyUpper rawSide = "LONG" ∨ pyUpper rawSide = "BUY" ∨
      pyUpper rawSide = "SHORT" ∨ pyUpper rawSide = "SELL")
    (hclose : close_position_for_symbol ex (pyUpper rawSym) = ((true, d), cc))
    (hlev : data.lev = some (.num L))
    (husdt : data.usdt = some (.num U))
    (htsl : data.tsl = some (.num T))
    (hinfo : get_symbol_info ex cache (pyUpper rawSym) = (.ok (some i), cache2, ci))
    (hchg : ex.futures_change_leverage (pyUpper rawSym) (pyIntTrunc L) = .ok ())
    (hmark : ex.futures_mark_price (pyUpper rawSym) = .ok P)
    (hP : ¬ P = 0)
    (hq : adjust_quantity (U * ((pyIntTrunc L : ℤ) : ℚ) / P) i.stepSize i.minQty = q)
    (hqpos : 0 < q)
    (hentry : ex.futures_create_order (pyUpper rawSym) (entrySide (pyUpper rawSide))
      "MARKET" q none none = .ok o)
    (htslord : ex.futures_create_order (pyUpper rawSym)
      (if entrySide (pyUpper rawSide) = "BUY" then "SELL" else "BUY")
      "TRAILING_STOP_MARKET" q (some T) (some "MARK_PRICE") = .ok o2) :
    (ExCall.createOrder (pyUpper rawSym)
        (if entrySide (pyUpper rawSide) = "BUY" then "SELL" else "BUY")
        "TRAILING_STOP_MARKET" q (some T) (some "MARK_PRICE")
      ∈ (webhook ex sec cache (some data)).2.2 ↔ ((0.1 : ℚ) ≤ T ∧ T ≤ 5)) ∧
    (webhook ex sec cache (some data)).1 =
      ⟨.successOpen o.orderId "Operacion completada", 200⟩ := by
  by_cases hr : (0.1 : ℚ) ≤ T ∧ T ≤ 5
  · have h := webhook_open_tsl_ok ex sec cache data rawSym rawSide L U T i
      cache2 ci P o o2 d cc q hsec hsym hside hdir hclose hlev husdt htsl hinfo
      hchg hmark hP hq hqpos hentry hr htslord
    rw [h]
    refine ⟨?_, rfl⟩
    simp [hr]
  · have h := webhook_open_tsl_skip ex sec cache data rawSym rawSide L U T i
      cache2 ci P o d cc q hsec hsym hside hdir hclose hlev husdt htsl hinfo
      hchg hmark hP hq hqpos hentry hr
    rw [h]
    refine ⟨iff_of_false ?_ hr, rfl⟩
    intro hmem
    rcases List.mem_append.mp hmem with hc | ho
    · have hall := close_calls_no_tsl ex (pyUpper rawSym)
      rw [hclose] at hall
      have hx := List.all_eq_true.mp hall _ hc
      simp [ExCall.isTrailingStop] at hx
    · rcases List.mem_append.mp ho with hcin | hrest
      · have hcalls := get_symbol_info_calls ex cache (pyUpper rawSym)
        rw [hinfo] at hcalls
        dsimp only [] at hcalls
        rcases hcalls with rfl | rfl
        · simp at hcin
        · simp at hcin
      · simp at hrest

/-- Witness for C9 at `tsl = 0.05` (outside `[0.1, 5]`): no trailing-stop
order is placed and the request still succeeds. -/
theorem C9_tsl_range_witness :
    (ExCall.createOrder (pyUpper "BTCUSDT")
        (if entrySide (pyUpper "LONG") = "BUY" then "SELL" else "BUY")
        "TRAILING_STOP_MARKET" (1/50) (some (1/20)) (some "MARK_PRICE")
      ∈ (webhook exFlat0 "s" cacheBTC (some dataTslTiny)).2.2 ↔
      ((0.1 : ℚ) ≤ 1/20 ∧ (1/20 : ℚ) ≤ 5)) ∧
    (webhook exFlat0 "s" cacheBTC (some dataTslTiny)).1 =
      ⟨.successOpen 7 "Operacion completada", 200⟩ :=
  C9_tsl_range exFlat0 "s" cacheBTC dataTslTiny "BTCUSDT" "LONG" 10 100 (1/20)
    ⟨1/10, 1/1000, 1/1000⟩ cacheBTC [] 50000 ⟨7⟩ ⟨7⟩
    (.msg "No position to close.") [.positionInfo (pyUpper "BTCUSDT")] (1/50)
    rfl rfl rfl (Or.inl rfl) (by decide) rfl rfl rfl rfl rfl rfl
    (by norm_num) witness_quantity_eval (by norm_num) rfl rfl

end BinanceBot
